import Mathlib

/-!
Shallow embedding of the gosdk transaction core: the `zcncore` transaction
submission / verification engine (`src/unnamed/part_000`) and the signature
scheme factory (`src/core/zcncrypto/zcncrypto.go`).

Conventions of the embedding:
* Go `int64` values (rounds, timestamps, fees) are modelled as `Int`; no
  arithmetic in the modelled code can overflow 64 bits on the inputs the
  claims quantify over, so no wraparound is applied.
* The chain hash function `encryption.Hash`, the Merkle-path verifier
  `util.VerifyMerklePath` and the receipt hash
  `transaction.NewTransactionReceipt(...).GetHash()` live outside the given
  sources; the embedded functions take them as explicit function parameters.
* Network calls are modelled by oracle parameters giving the response each
  call would receive; unbounded `for` loops are modelled with explicit fuel,
  `none` meaning the loop is still running when the fuel runs out.
* A Go `panic` (and a nil-pointer dereference) is modelled as `none` /
  `Except.error` in the corresponding `Option` / `Except` result.
-/

namespace Zcncore

/-- Submission / verification status codes. The constants `StatusUnknown`,
`StatusSuccess`, `StatusError` are declared outside the given sources; only
their distinctness is used, so they are modelled as an enumeration. -/
inductive Status where
  | unknown
  | success
  | error
deriving DecidableEq, Repr

def StatusUnknown : Status := Status.unknown

def StatusSuccess : Status := Status.success

def StatusError : Status := Status.error

/-- Block header, from `type blockHeader struct` in `src/unnamed/part_000`. -/
structure blockHeader where
  Version : String
  CreationDate : Int
  Hash : String
  MinerId : String
  Round : Int
  RoundRandomSeed : Int
  MerkleTreeRoot : String
  StateHash : String
  ReceiptMerkleTreeRoot : String
  NumTxns : Int
deriving DecidableEq, Repr

/-- `fmt.Sprintf` with format `%v:%v:%v:%v:%v:%v:%v`: the seven rendered
values joined by colons. -/
def sprintf7v (a b c d e f g : String) : String :=
  a ++ ":" ++ b ++ ":" ++ c ++ ":" ++ d ++ ":" ++ e ++ ":" ++ f ++ ":" ++ g

/-- `isBlockExtends` from `src/unnamed/part_000`: recompute the chain hash of
the colon-joined fields (with the supplied predecessor hash) and compare with
the header's recorded hash. `H` is the chain hash `encryption.Hash`. -/
def isBlockExtends (H : String → String) (prevHash : String) (block : blockHeader) : Bool :=
  let data := sprintf7v block.MinerId prevHash (toString block.CreationDate)
    (toString block.Round) (toString block.RoundRandomSeed)
    block.MerkleTreeRoot block.ReceiptMerkleTreeRoot
  let h := H data
  if block.Hash == h then true else false

/-- C2: `isBlockExtends` accepts exactly when the header's hash equals the
chain hash of `miner_id:prev:creation_date:round:round_random_seed:`
`merkle_tree_root:receipt_merkle_tree_root`, the fields rendered textually in
exactly this order. -/
theorem C2_isBlockExtends_iff (H : String → String) (prevHash : String) (b : blockHeader) :
    isBlockExtends H prevHash b = true ↔
      b.Hash = H (b.MinerId ++ ":" ++ prevHash ++ ":" ++ toString b.CreationDate ++ ":" ++
        toString b.Round ++ ":" ++ toString b.RoundRandomSeed ++ ":" ++
        b.MerkleTreeRoot ++ ":" ++ b.ReceiptMerkleTreeRoot) := by
  simp only [isBlockExtends, sprintf7v]
  constructor
  · intro h
    by_cases hb : b.Hash == H (b.MinerId ++ ":" ++ prevHash ++ ":" ++ toString b.CreationDate ++
        ":" ++ toString b.Round ++ ":" ++ toString b.RoundRandomSeed ++ ":" ++
        b.MerkleTreeRoot ++ ":" ++ b.ReceiptMerkleTreeRoot)
    · exact eq_of_beq hb
    · simp [hb] at h
  · intro h
    simp [h]

/-- The two concrete signature schemes of `src/core/zcncrypto/zcncrypto.go`,
built by `NewED255190chainScheme` and `NewBLS0ChainScheme`. -/
inductive SignatureSchemeKind where
  | ed25519scheme
  | bls0chainScheme
deriving DecidableEq, Repr

/-- `NewSignatureScheme` from `src/core/zcncrypto/zcncrypto.go`: a `switch` on
the configuration string returning the matching scheme; the `default` branch
is a Go `panic` (fatal, non-recoverable), modelled as `none`. -/
def NewSignatureScheme (sigScheme : String) : Option SignatureSchemeKind :=
  if sigScheme = "ed25519" then some SignatureSchemeKind.ed25519scheme
  else if sigScheme = "bls0chain" then some SignatureSchemeKind.bls0chainScheme
  else none

/-- C8: `NewSignatureScheme` returns a scheme exactly for the strings
"ed25519" and "bls0chain"; on every other configuration string it fails fast
with a fatal panic (modelled by `none`). -/
theorem C8_NewSignatureScheme_total (sigScheme : String) :
    (NewSignatureScheme sigScheme).isSome = true ↔
      sigScheme = "ed25519" ∨ sigScheme = "bls0chain" := by
  by_cases h1 : sigScheme = "ed25519" <;>
    by_cases h2 : sigScheme = "bls0chain" <;>
    simp [NewSignatureScheme, h1, h2]

/-- The fields of `core/transaction.Transaction` that the embedded code reads
or writes (`src/unnamed/part_000` imports it; the struct itself is declared
outside the given sources, its fields are taken from the accesses and from the
spec's Transaction data model). -/
structure TransactionEntity where
  Hash : String
  Signature : String
  CreationDate : Int
  TransactionType : Int
  ToClientID : String
  Value : Int
  TransactionData : String
  TransactionFee : Int
  ClientID : String
  PublicKey : String
  ChainID : String
deriving DecidableEq, Repr

/-- `type Transaction struct` from `src/unnamed/part_000`. The callback
interface value `txnCb` is abstracted by a type parameter `Cb` (nil modelled
by `none`); the Go `error` fields are modelled by `Option String` carrying the
message (`none` is a nil error). -/
structure Transaction (Cb : Type) where
  txn : TransactionEntity
  txnOut : String
  txnHash : String
  txnStatus : Status
  txnError : Option String
  txnCb : Option Cb
  verifyStatus : Status
  verifyOut : String
  verifyError : Option String
deriving DecidableEq, Repr

/-- `SetTransactionCallback` from `src/unnamed/part_000`: refuses (with an
already-exists error) unless the submission status is still `StatusUnknown`;
otherwise stores the callback. Returns the updated state and the error. -/
def SetTransactionCallback {Cb : Type} (t : Transaction Cb) (cb : Cb) :
    Transaction Cb × Option String :=
  if t.txnStatus ≠ StatusUnknown then
    (t, some "transaction already exists. cannot set transaction hash.")
  else ({ t with txnCb := some cb }, none)

/-- `SetTransactionFee` from `src/unnamed/part_000`. -/
def SetTransactionFee {Cb : Type} (t : Transaction Cb) (txnFee : Int) :
    Transaction Cb × Option String :=
  if t.txnStatus ≠ StatusUnknown then
    (t, some "transaction already exists. cannot set transaction fee.")
  else ({ t with txn := { t.txn with TransactionFee := txnFee } }, none)

/-- `SetTransactionHash` from `src/unnamed/part_000`. -/
def SetTransactionHash {Cb : Type} (t : Transaction Cb) (hash : String) :
    Transaction Cb × Option String :=
  if t.txnStatus ≠ StatusUnknown then
    (t, some "transaction already exists. cannot set transaction hash.")
  else ({ t with txnHash := hash }, none)

/-- C7: each of the three mutators returns an error exactly when the
submission status is no longer `StatusUnknown`, in which case its target
field (callback, fee, hash) is left unchanged; when the status is
`StatusUnknown` the field is set and no error is returned. -/
theorem C7_mutators_after_submission {Cb : Type} (t : Transaction Cb)
    (cb : Cb) (txnFee : Int) (hash : String) :
    ((SetTransactionCallback t cb).2.isSome = true ↔ t.txnStatus ≠ StatusUnknown) ∧
    (SetTransactionCallback t cb).1.txnCb =
      (if t.txnStatus = StatusUnknown then some cb else t.txnCb) ∧
    ((SetTransactionFee t txnFee).2.isSome = true ↔ t.txnStatus ≠ StatusUnknown) ∧
    (SetTransactionFee t txnFee).1.txn.TransactionFee =
      (if t.txnStatus = StatusUnknown then txnFee else t.txn.TransactionFee) ∧
    ((SetTransactionHash t hash).2.isSome = true ↔ t.txnStatus ≠ StatusUnknown) ∧
    (SetTransactionHash t hash).1.txnHash =
      (if t.txnStatus = StatusUnknown then hash else t.txnHash) := by
  by_cases h : t.txnStatus = StatusUnknown <;>
    simp [SetTransactionCallback, SetTransactionFee, SetTransactionHash, h]

/-- `GetTransactionError` from `src/unnamed/part_000`: when the submission
status is not `StatusSuccess` it returns `t.txnError.Error()`. Dereferencing a
nil `txnError` is a Go nil-pointer panic, modelled by the result `none`;
`some s` models a normally returned string. -/
def GetTransactionError {Cb : Type} (t : Transaction Cb) : Option String :=
  if t.txnStatus ≠ StatusSuccess then t.txnError
  else some ""

/-- `GetVerifyError` from `src/unnamed/part_000`, the same shape over the
verification status and error. -/
def GetVerifyError {Cb : Type} (t : Transaction Cb) : Option String :=
  if t.verifyStatus ≠ StatusSuccess then t.verifyError
  else some ""

/-- C9: on a transaction whose `txnError` is nil while its submission status
is not `StatusSuccess` (e.g. a freshly constructed transaction, status still
`StatusUnknown`), `GetTransactionError` dereferences the nil error and panics
(result `none`) instead of returning a string; likewise `GetVerifyError` when
`verifyError` is nil and the verify status is not `StatusSuccess`. -/
theorem C9_error_getters_nil_deref {Cb : Type} (t : Transaction Cb) :
    (t.txnError = none → t.txnStatus ≠ StatusSuccess → GetTransactionError t = none) ∧
    (t.verifyError = none → t.verifyStatus ≠ StatusSuccess → GetVerifyError t = none) := by
  constructor
  · intro he hs
    simp [GetTransactionError, hs, he]
  · intro he hs
    simp [GetVerifyError, hs, he]

/-- A freshly constructed transaction as `newTransaction` builds it: both
statuses `StatusUnknown`, no output, no error, no hash. -/
def freshTransaction (txn : TransactionEntity) : Transaction Unit :=
  { txn := txn, txnOut := "", txnHash := "", txnStatus := StatusUnknown,
    txnError := none, txnCb := none, verifyStatus := StatusUnknown,
    verifyOut := "", verifyError := none }

def emptyTxnEntity : TransactionEntity :=
  { Hash := "", Signature := "", CreationDate := 0, TransactionType := 0,
    ToClientID := "", Value := 0, TransactionData := "", TransactionFee := 0,
    ClientID := "", PublicKey := "", ChainID := "" }

/-- Witness for C9: a fresh transaction panics in both getters. -/
theorem C9_error_getters_nil_deref_witness :
    GetTransactionError (freshTransaction emptyTxnEntity) = none ∧
    GetVerifyError (freshTransaction emptyTxnEntity) = none :=
  ⟨(C9_error_getters_nil_deref (freshTransaction emptyTxnEntity)).1 (by decide) (by decide),
   (C9_error_getters_nil_deref (freshTransaction emptyTxnEntity)).2 (by decide) (by decide)⟩

/-- `isTransactionExpired` from `src/unnamed/part_000`. `creationDate` stands
for `t.txn.CreationDate` and `expSeconds` for the configuration constant
`defaultTxnExpirationSeconds` (declared outside the given sources). A zero
`lfbCreationTime` means no sharder responded and is replaced by the current
time. (The `time.Sleep` before returning false has no observable effect on
the result and is not modelled.) -/
def isTransactionExpired (expSeconds creationDate lfbCreationTime currentTime : Int) : Bool :=
  let lfb := if lfbCreationTime = 0 then currentTime else lfbCreationTime
  decide (min lfb currentTime > creationDate + expSeconds)

/-- C5: the expiration predicate holds exactly when
`min(lfb_creation_time, now) > creation_date + defaultTxnExpirationSeconds`,
with `lfb_creation_time` replaced by `now` when it is zero. -/
theorem C5_isTransactionExpired_iff (expSeconds creationDate lfbCreationTime currentTime : Int) :
    isTransactionExpired expSeconds creationDate lfbCreationTime currentTime = true ↔
      min (if lfbCreationTime = 0 then currentTime else lfbCreationTime) currentTime >
        creationDate + expSeconds := by
  simp [isTransactionExpired]

/-- `GetTransactionHash` from `src/unnamed/part_000`. The JSON unmarshalling
of `txnOut` followed by the lookup of `entity.hash` is modelled by the oracle
`parseEntityHash : String → Option String` (`none` covers both a parse error
and a missing or non-string hash, in which case the cached `txnHash` is
returned unchanged). Returns the updated state and the hash. -/
def GetTransactionHash {Cb : Type} (parseEntityHash : String → Option String)
    (t : Transaction Cb) : Transaction Cb × String :=
  if t.txnHash ≠ "" then (t, t.txnHash)
  else if t.txnStatus ≠ StatusSuccess then (t, "")
  else
    match parseEntityHash t.txnOut with
    | some h => ({ t with txnHash := h }, h)
    | none => (t, t.txnHash)

/-- The synchronous prefix of `Verify` from `src/unnamed/part_000`, up to (and
including) the decision to spawn the confirmation-loop goroutine. The result
pairs the transaction state as left behind by this prefix with
`Except.error msg` when `Verify` returns an error synchronously (no goroutine
spawned, no callback invoked) and `Except.ok true` when the confirmation loop
is spawned and `nil` is returned. `now` stands for `common.Now()`. -/
def VerifySync {Cb : Type} (parseEntityHash : String → Option String) (now : Int)
    (t : Transaction Cb) : Transaction Cb × Except String Bool :=
  if t.txnHash = "" ∧ t.txnStatus = StatusUnknown then
    (t, Except.error "invalid transaction. cannot be verified.")
  else if t.txnHash = "" ∧ t.txnStatus = StatusSuccess then
    let p := GetTransactionHash parseEntityHash t
    if p.2 = "" then (p.1, Except.error "invalid transaction. cannot be verified.")
    else if p.1.txn.CreationDate = 0 then
      ({ p.1 with txn := { p.1.txn with CreationDate := now } }, Except.ok true)
    else (p.1, Except.ok true)
  else if t.txn.CreationDate = 0 then
    ({ t with txn := { t.txn with CreationDate := now } }, Except.ok true)
  else (t, Except.ok true)

/-- C10: on a transaction with empty hash and submission status
`StatusUnknown`, `Verify` returns an error synchronously and leaves the state
(in particular the verify status and outputs) untouched; no confirmation loop
is started and no callback is invoked. -/
theorem C10_Verify_rejects_unsubmitted {Cb : Type}
    (parseEntityHash : String → Option String) (now : Int) (t : Transaction Cb)
    (hh : t.txnHash = "") (hs : t.txnStatus = StatusUnknown) :
    VerifySync parseEntityHash now t =
      (t, Except.error "invalid transaction. cannot be verified.") := by
  simp [VerifySync, hh, hs]

/-- Witness for C10 at a fresh transaction. -/
theorem C10_Verify_rejects_unsubmitted_witness :
    VerifySync (fun _ => none) 7 (freshTransaction emptyTxnEntity) =
      (freshTransaction emptyTxnEntity,
        Except.error "invalid transaction. cannot be verified.") :=
  C10_Verify_rejects_unsubmitted (fun _ => none) 7 (freshTransaction emptyTxnEntity)
    rfl rfl

/-- One outcome of an iteration of the confirmation loop inside `Verify`
(`src/unnamed/part_000`): complete with an expiration failure and stop,
retry the loop, or proceed to `validateChain` with the confirmed block. -/
inductive VerifyIterOutcome where
  | failExpired
  | retry
  | proceed (b : blockHeader)
deriving DecidableEq, Repr

/-- One iteration of the confirmation loop of `Verify`
(`src/unnamed/part_000`), up to the `validateChain` call. The two
`getTransactionConfirmation` network calls are modelled by oracles: `probe`
is the single-sharder query, `quorum` the escalated
`getMinShardersVerify()`-sharder query; a failed query is `Except.error l`
with `l` the creation date of the latest finalized block the query returned
(`lfb.CreationDate`), a successful one is `Except.ok` of the confirmed block
header. `tn` is `common.Now()` as read at the failure, `creationDate` is
`t.txn.CreationDate`, `expSeconds` is `defaultTxnExpirationSeconds`. The
returned `Bool` records whether the iteration escalated to the quorum
query. -/
def verifyIteration (expSeconds creationDate tn : Int)
    (probe : Except Int blockHeader) (quorum : Except Int blockHeader) :
    Bool × VerifyIterOutcome :=
  match probe with
  | Except.ok b => (false, VerifyIterOutcome.proceed b)
  | Except.error lfbCreation =>
    if max lfbCreation tn < creationDate + expSeconds then
      match quorum with
      | Except.ok b => (true, VerifyIterOutcome.proceed b)
      | Except.error lfbCreation2 =>
        if isTransactionExpired expSeconds creationDate lfbCreation2 tn then
          (true, VerifyIterOutcome.failExpired)
        else (true, VerifyIterOutcome.retry)
    else
      if isTransactionExpired expSeconds creationDate lfbCreation tn then
        (false, VerifyIterOutcome.failExpired)
      else (false, VerifyIterOutcome.retry)

/-- C6 counterexample: with `defaultTxnExpirationSeconds = 100`,
`creation_date = 0`, `now = 50` and a failed probe whose latest finalized
block has creation time 150, the transaction is not expired under the
expiration rule (`min(150, 50) = 50 ≤ 100`), yet the engine does not
escalate: the escalation guard in the code is
`max(lfb_creation_time, now) < creation_date + defaultTxnExpirationSeconds`,
and `max(150, 50) = 150 ≥ 100`. -/
theorem C6_escalation_counterexample :
    (verifyIteration 100 0 50 (Except.error 150) (Except.error 150)).1 = false ∧
    isTransactionExpired 100 0 150 50 = false := by
  constructor
  · rfl
  · rfl

/-- C6 amended: an iteration whose probe yields no confirmation escalates to
the quorum query exactly when `max(lfb_creation_time, now) <
creation_date + defaultTxnExpirationSeconds` — not exactly when the
transaction is short of the expiration rule's `min`-based window. -/
theorem C6_escalation_iff (expSeconds creationDate tn : Int)
    (probe quorum : Except Int blockHeader) :
    (verifyIteration expSeconds creationDate tn probe quorum).1 = true ↔
      ∃ lfbCreation, probe = Except.error lfbCreation ∧
        max lfbCreation tn < creationDate + expSeconds := by
  cases probe with
  | ok b => simp [verifyIteration]
  | error lfbCreation =>
    have hiff : (∃ l, (Except.error lfbCreation : Except Int blockHeader) = Except.error l ∧
        max l tn < creationDate + expSeconds) ↔
        max lfbCreation tn < creationDate + expSeconds := by
      constructor
      · rintro ⟨l, hl, h2⟩
        cases hl
        exact h2
      · intro h
        exact ⟨lfbCreation, rfl, h⟩
    rw [hiff]
    by_cases h : max lfbCreation tn < creationDate + expSeconds
    · simp only [verifyIteration, if_pos h]
      cases quorum with
      | ok b => simpa using h
      | error l2 =>
        cases he : isTransactionExpired expSeconds creationDate l2 tn <;> simp [he, h]
    · simp only [verifyIteration, if_neg h]
      cases he : isTransactionExpired expSeconds creationDate lfbCreation tn <;> simp [he, h]

/-- `type confirmation struct` from `src/unnamed/part_000`. The Merkle path
type `util.MTPath` is declared outside the given sources and is abstracted by
the type parameter `Path`. The `Transaction` field is a pointer in Go; a
response that contains a confirmation carries the transaction, so it is
modelled as a plain field. -/
structure confirmation (Path : Type) where
  Version : String
  Hash : String
  BlockHash : String
  PreviousBlockHash : String
  Transaction : TransactionEntity
  CreationDate : Int
  MinerID : String
  Round : Int
  Status : Int
  RoundRandomSeed : Int
  MerkleTreeRoot : String
  MerkleTreePath : Path
  ReceiptMerkleTreeRoot : String
  ReceiptMerkleTreePath : Path
deriving DecidableEq, Repr

/-- The block header that `getBlockHeaderFromTransactionConfirmation` builds
from a confirmation (`block := &blockHeader{}` followed by the seven field
assignments; `Version`, `StateHash` and `NumTxns` keep their zero values). -/
def headerOfConfirmation {Path : Type} (cfm : confirmation Path) : blockHeader :=
  { Version := "", CreationDate := cfm.CreationDate, Hash := cfm.BlockHash,
    MinerId := cfm.MinerID, Round := cfm.Round,
    RoundRandomSeed := cfm.RoundRandomSeed, MerkleTreeRoot := cfm.MerkleTreeRoot,
    StateHash := "", ReceiptMerkleTreeRoot := cfm.ReceiptMerkleTreeRoot,
    NumTxns := 0 }

/-- `getBlockHeaderFromTransactionConfirmation` from `src/unnamed/part_000`.
`cfmBlock` models the `"confirmation"` entry of the response map after JSON
unmarshalling: `none` when the key is absent (or the bytes fail to parse),
`some cfm` otherwise. `vmp` is `util.VerifyMerklePath`, `receiptHash` is
`transaction.NewTransactionReceipt(txn).GetHash()`, `H` is
`encryption.Hash`; all three live outside the given sources. -/
def getBlockHeaderFromTransactionConfirmation {Path : Type}
    (vmp : String → Path → String → Bool) (receiptHash : TransactionEntity → String)
    (H : String → String) (txnHash : String) (cfmBlock : Option (confirmation Path)) :
    Except String blockHeader :=
  match cfmBlock with
  | none => Except.error "txn confirmation not found."
  | some cfm =>
    if txnHash ≠ cfm.Transaction.Hash then
      Except.error ("invalid transaction hash. Expected: " ++ txnHash ++
        ". Received: " ++ cfm.Transaction.Hash)
    else if !(vmp cfm.Transaction.Hash cfm.MerkleTreePath cfm.MerkleTreeRoot) then
      Except.error "txn merkle validation failed."
    else if !(vmp (receiptHash cfm.Transaction) cfm.ReceiptMerkleTreePath
        cfm.ReceiptMerkleTreeRoot) then
      Except.error "txn receipt cmerkle validation failed."
    else
      let block := headerOfConfirmation cfm
      if isBlockExtends H cfm.PreviousBlockHash block then Except.ok block
      else Except.error "block hash verification failed in confirmation"

/-- C3: extracting a block header from a response that contains a
confirmation succeeds — and then yields exactly the header built from the
confirmation — if and only if the four checks pass: expected transaction
hash, Merkle inclusion of the transaction hash, Merkle inclusion of the
receipt hash, and the recomputed block hash matching `block_hash`; any
failing check yields an error and no header. -/
theorem C3_confirmation_four_checks {Path : Type}
    (vmp : String → Path → String → Bool) (receiptHash : TransactionEntity → String)
    (H : String → String) (txnHash : String) (cfm : confirmation Path) :
    ((getBlockHeaderFromTransactionConfirmation vmp receiptHash H txnHash
        (some cfm)).isOk = true ↔
      (txnHash = cfm.Transaction.Hash ∧
        vmp cfm.Transaction.Hash cfm.MerkleTreePath cfm.MerkleTreeRoot = true ∧
        vmp (receiptHash cfm.Transaction) cfm.ReceiptMerkleTreePath
          cfm.ReceiptMerkleTreeRoot = true ∧
        isBlockExtends H cfm.PreviousBlockHash (headerOfConfirmation cfm) = true)) ∧
    (getBlockHeaderFromTransactionConfirmation vmp receiptHash H txnHash (some cfm) =
        Except.ok (headerOfConfirmation cfm) ↔
      (txnHash = cfm.Transaction.Hash ∧
        vmp cfm.Transaction.Hash cfm.MerkleTreePath cfm.MerkleTreeRoot = true ∧
        vmp (receiptHash cfm.Transaction) cfm.ReceiptMerkleTreePath
          cfm.ReceiptMerkleTreeRoot = true ∧
        isBlockExtends H cfm.PreviousBlockHash (headerOfConfirmation cfm) = true)) := by
  by_cases h1 : txnHash = cfm.Transaction.Hash <;>
    by_cases h2 : vmp cfm.Transaction.Hash cfm.MerkleTreePath cfm.MerkleTreeRoot = true <;>
    by_cases h3 : vmp (receiptHash cfm.Transaction) cfm.ReceiptMerkleTreePath
      cfm.ReceiptMerkleTreeRoot = true <;>
    by_cases h4 : isBlockExtends H cfm.PreviousBlockHash (headerOfConfirmation cfm) = true <;>
    simp [getBlockHeaderFromTransactionConfirmation, h1, h2, h3, h4, Except.isOk,
      Except.toBool]

/-- `util.PostResponse` (declared outside the given sources), with the fields
`submitTxn` reads. -/
structure PostResponse where
  Url : String
  Status : String
  StatusCode : Int
  Body : String
deriving DecidableEq, Repr

/-- The response-aggregation loop of `submitTxn` (`src/unnamed/part_000`):
fold over the responses in arrival order, counting HTTP-200 responses and
keeping the last 200 body as `tSuccessRsp` and the last non-200 body as
`tFailureRsp` (both initially empty). Returns
`(consensus count, tSuccessRsp, tFailureRsp)`. -/
def aggregateSubmitResponses (rsps : List PostResponse) : Nat × String × String :=
  rsps.foldl (fun acc rsp =>
    if rsp.StatusCode = 200 then (acc.1 + 1, rsp.Body, acc.2.2)
    else (acc.1, acc.2.1, rsp.Body)) (0, "", "")

/-- The decision tail of `submitTxn` (`src/unnamed/part_000`) once the
responses from the `len(randomMiners)` sampled miners have arrived: compute
`rate = consensus * 100 / len(randomMiners)` and complete with
`StatusError` and the pooled failure body when `rate < consensusThresh`,
otherwise (after the grace sleep) with `StatusSuccess` and the pooled success
body. The Go `float32` arithmetic is modelled by exact rational arithmetic
(the counts involved are small enough to be exact in `float32`; only the
division may round there, infinitesimally near the threshold). The result
triple is the `(status, out, error)` passed to `completeTxn`. -/
def submitTxnOutcome (consensusThresh : ℚ) (rsps : List PostResponse) :
    Status × String × Option String :=
  let agg := aggregateSubmitResponses rsps
  let rate : ℚ := (agg.1 * 100 : ℚ) / (rsps.length : ℚ)
  if rate < consensusThresh then
    (StatusError, "", some ("submit transaction failed. " ++ agg.2.2))
  else (StatusSuccess, agg.2.1, none)

theorem aggregateSubmitResponses_count (rsps : List PostResponse) :
    (aggregateSubmitResponses rsps).1 = rsps.countP (fun r => r.StatusCode = 200) := by
  suffices h : ∀ acc : Nat × String × String,
      (rsps.foldl (fun acc rsp =>
        if rsp.StatusCode = 200 then (acc.1 + 1, rsp.Body, acc.2.2)
        else (acc.1, acc.2.1, rsp.Body)) acc).1 =
      acc.1 + rsps.countP (fun r => r.StatusCode = 200) by
    simpa [aggregateSubmitResponses] using h (0, "", "")
  induction rsps with
  | nil => intro acc; simp
  | cons r rs ih =>
    intro acc
    by_cases hr : r.StatusCode = 200
    · simp [List.countP_cons, hr, ih]
      omega
    · simp [List.countP_cons, hr, ih]

/-- C4: the submission completes with `StatusSuccess` and the pooled success
body exactly when the number of HTTP-200 responses, as a percentage of the
number `K` of sampled miners, reaches `consensusThresh`; otherwise it
completes with `StatusError` and an error wrapping the pooled failure body. -/
theorem C4_submitTxn_threshold (consensusThresh : ℚ) (rsps : List PostResponse)
    (_hne : rsps ≠ []) :
    (submitTxnOutcome consensusThresh rsps =
        (StatusSuccess, (aggregateSubmitResponses rsps).2.1, none) ↔
      consensusThresh ≤
        ((rsps.countP (fun r => r.StatusCode = 200)) * 100 : ℚ) / (rsps.length : ℚ)) ∧
    (submitTxnOutcome consensusThresh rsps =
        (StatusError, "",
          some ("submit transaction failed. " ++ (aggregateSubmitResponses rsps).2.2)) ↔
      ((rsps.countP (fun r => r.StatusCode = 200)) * 100 : ℚ) / (rsps.length : ℚ) <
        consensusThresh) := by
  have hout : submitTxnOutcome consensusThresh rsps =
      if ((rsps.countP (fun r => r.StatusCode = 200)) * 100 : ℚ) / (rsps.length : ℚ) <
          consensusThresh then
        (StatusError, "",
          some ("submit transaction failed. " ++ (aggregateSubmitResponses rsps).2.2))
      else (StatusSuccess, (aggregateSubmitResponses rsps).2.1, none) := by
    simp only [submitTxnOutcome, aggregateSubmitResponses_count]
  rw [hout]
  by_cases h : ((rsps.countP (fun r => r.StatusCode = 200)) * 100 : ℚ) /
      (rsps.length : ℚ) < consensusThresh
  · rw [if_pos h]
    exact ⟨iff_of_false (by simp [StatusError, StatusSuccess]) (not_le.mpr h),
      iff_of_true rfl h⟩
  · rw [if_neg h]
    exact ⟨iff_of_true rfl (not_lt.mp h),
      iff_of_false (by simp [StatusError, StatusSuccess]) h⟩

/-- Witness for C4: three responses, two of them HTTP-200, against the
default threshold of 25 percent. -/
theorem C4_submitTxn_threshold_witness :
    ([⟨"u1", "200 OK", 200, "okbody"⟩, ⟨"u2", "500", 500, "failbody"⟩,
        ⟨"u3", "200 OK", 200, "okbody2"⟩] : List PostResponse) ≠ [] ∧
    ((submitTxnOutcome 25 [⟨"u1", "200 OK", 200, "okbody"⟩, ⟨"u2", "500", 500, "failbody"⟩,
        ⟨"u3", "200 OK", 200, "okbody2"⟩] =
        (StatusSuccess,
          (aggregateSubmitResponses [⟨"u1", "200 OK", 200, "okbody"⟩,
            ⟨"u2", "500", 500, "failbody"⟩, ⟨"u3", "200 OK", 200, "okbody2"⟩]).2.1, none) ↔
      (25 : ℚ) ≤
        (([⟨"u1", "200 OK", 200, "okbody"⟩, ⟨"u2", "500", 500, "failbody"⟩,
          ⟨"u3", "200 OK", 200, "okbody2"⟩] : List PostResponse).countP
            (fun r => r.StatusCode = 200) * 100 : ℚ) /
          (([⟨"u1", "200 OK", 200, "okbody"⟩, ⟨"u2", "500", 500, "failbody"⟩,
            ⟨"u3", "200 OK", 200, "okbody2"⟩] : List PostResponse).length : ℚ)) ∧
      (submitTxnOutcome 25 [⟨"u1", "200 OK", 200, "okbody"⟩, ⟨"u2", "500", 500, "failbody"⟩,
        ⟨"u3", "200 OK", 200, "okbody2"⟩] =
        (StatusError, "",
          some ("submit transaction failed. " ++
            (aggregateSubmitResponses [⟨"u1", "200 OK", 200, "okbody"⟩,
              ⟨"u2", "500", 500, "failbody"⟩, ⟨"u3", "200 OK", 200, "okbody2"⟩]).2.2)) ↔
      (([⟨"u1", "200 OK", 200, "okbody"⟩, ⟨"u2", "500", 500, "failbody"⟩,
        ⟨"u3", "200 OK", 200, "okbody2"⟩] : List PostResponse).countP
          (fun r => r.StatusCode = 200) * 100 : ℚ) /
        (([⟨"u1", "200 OK", 200, "okbody"⟩, ⟨"u2", "500", 500, "failbody"⟩,
          ⟨"u3", "200 OK", 200, "okbody2"⟩] : List PostResponse).length : ℚ) < 25)) :=
  ⟨by decide,
    C4_submitTxn_threshold 25 [⟨"u1", "200 OK", 200, "okbody"⟩,
      ⟨"u2", "500", 500, "failbody"⟩, ⟨"u3", "200 OK", 200, "okbody2"⟩] (by decide)⟩

/-- The unbounded `for` loop of `validateChain` (`src/unnamed/part_000`),
instrumented. `fetch` is the network oracle for the header query of one
iteration: the code first asks one sharder via `getBlockInfoByRound` and on
error retries with `getMinShardersVerify()` sharders; `some nextBlock` means
one of the two calls returned a header, `none` that both failed (the code
then sleeps and continues with `round` and `currentBlockHash` unchanged).
`fetch` receives the remaining fuel as an iteration index, so different
iterations may observe different responses. The fuel bounds the number of
iterations; `none` means the loop is still running when the fuel runs out.
On exit the result carries, beside the returned `Bool`, two ghost values:
the final value of `round` and the number of iterations whose
`isBlockExtends` check succeeded (each of which advanced `round` by one). -/
def validateChainLoop (H : String → String) (fetch : Nat → Int → Option blockHeader)
    (minRequiredChainLength confirmRound : Int) :
    String → Int → Nat → Option (Bool × Int × Nat)
  | _, _, 0 => none
  | currentBlockHash, round, fuel + 1 =>
    match fetch fuel round with
    | none =>
      validateChainLoop H fetch minRequiredChainLength confirmRound
        currentBlockHash round fuel
    | some nextBlock =>
      if isBlockExtends H currentBlockHash nextBlock then
        if confirmRound < round + 1 ∧ round + 1 - confirmRound < minRequiredChainLength then
          (validateChainLoop H fetch minRequiredChainLength confirmRound
            nextBlock.Hash (round + 1) fuel).map (fun r => (r.1, r.2.1, r.2.2 + 1))
        else if round + 1 < confirmRound then some (false, round + 1, 1)
        else some (true, round + 1, 1)
      else
        if confirmRound < round ∧ round - confirmRound < minRequiredChainLength then
          validateChainLoop H fetch minRequiredChainLength confirmRound
            currentBlockHash round fuel
        else if round < confirmRound then some (false, round, 0)
        else some (true, round, 0)

/-- `validateChain` from `src/unnamed/part_000`: walk the chain forward from
`confirmBlock.Round + 1`, starting the hash chain at `confirmBlock.Hash`.
`minRequiredChainLength` is the configuration value
`getMinRequiredChainLength()` (declared outside the given sources). -/
def validateChain (H : String → String) (fetch : Nat → Int → Option blockHeader)
    (minRequiredChainLength : Int) (confirmBlock : blockHeader) (fuel : Nat) :
    Option Bool :=
  (validateChainLoop H fetch minRequiredChainLength confirmBlock.Round
    confirmBlock.Hash (confirmBlock.Round + 1) fuel).map (fun r => r.1)

theorem validateChainLoop_success_round (H : String → String)
    (fetch : Nat → Int → Option blockHeader) (L confirmRound : Int) :
    ∀ (fuel : Nat) (ch : String) (round finalRound : Int) (n : Nat),
      validateChainLoop H fetch L confirmRound ch round fuel =
        some (true, finalRound, n) →
      finalRound = round + n ∧ (confirmRound < round → confirmRound + L ≤ finalRound) := by
  intro fuel
  induction fuel with
  | zero =>
    intro ch round rf n h
    exact absurd h (by simp [validateChainLoop])
  | succ fuel ih =>
    intro ch round rf n h
    simp only [validateChainLoop] at h
    cases hf : fetch fuel round with
    | none =>
      rw [hf] at h
      exact ih ch round rf n h
    | some nb =>
      rw [hf] at h
      dsimp only at h
      by_cases hext : isBlockExtends H ch nb = true
      · rw [if_pos hext] at h
        by_cases hc : confirmRound < round + 1 ∧ round + 1 - confirmRound < L
        · rw [if_pos hc] at h
          rcases Option.map_eq_some'.mp h with ⟨⟨b', rf', n'⟩, hl, hfa⟩
          simp only [Prod.mk.injEq] at hfa
          obtain ⟨hb, hrf, hn⟩ := hfa
          subst hb
          have hih := ih nb.Hash (round + 1) rf' n' hl
          constructor
          · omega
          · intro hcr
            have := hih.2 (by omega)
            omega
        · rw [if_neg hc] at h
          by_cases h2 : round + 1 < confirmRound
          · rw [if_pos h2] at h
            exact absurd h (by simp)
          · rw [if_neg h2] at h
            simp only [Option.some.injEq, Prod.mk.injEq] at h
            obtain ⟨-, hrf, hn⟩ := h
            constructor
            · omega
            · intro hcr
              omega
      · rw [if_neg hext] at h
        by_cases hc : confirmRound < round ∧ round - confirmRound < L
        · rw [if_pos hc] at h
          exact ih ch round rf n h
        · rw [if_neg hc] at h
          by_cases h2 : round < confirmRound
          · rw [if_pos h2] at h
            exact absurd h (by simp)
          · rw [if_neg h2] at h
            simp only [Option.some.injEq, Prod.mk.injEq] at h
            obtain ⟨-, hrf, hn⟩ := h
            constructor
            · omega
            · intro hcr
              omega

/-- C1: whenever the chain walk reports success (`validateChain` yields
`true`), the walk — which started at round `confirm_round + 1` and advanced
the round exactly once per header verified to extend the current chain — has
reached a round at least `confirm_round + min_required_chain_length`: the
final round is `confirm_round + 1` plus the number of verified extending
headers, and is at least `confirm_round + min_required_chain_length`. -/
theorem C1_validateChain_min_length (H : String → String)
    (fetch : Nat → Int → Option blockHeader) (minRequiredChainLength : Int)
    (confirmBlock : blockHeader) (fuel : Nat) (finalRound : Int) (extended : Nat)
    (h : validateChainLoop H fetch minRequiredChainLength confirmBlock.Round
        confirmBlock.Hash (confirmBlock.Round + 1) fuel =
      some (true, finalRound, extended)) :
    validateChain H fetch minRequiredChainLength confirmBlock fuel = some true ∧
    confirmBlock.Round + minRequiredChainLength ≤ finalRound ∧
    finalRound = confirmBlock.Round + 1 + extended := by
  have hmain := validateChainLoop_success_round H fetch minRequiredChainLength
    confirmBlock.Round fuel confirmBlock.Hash (confirmBlock.Round + 1)
    finalRound extended h
  refine ⟨?_, hmain.2 (by omega), by omega⟩
  simp [validateChain, h]

/-- A minimal block header used as a concrete input. -/
def sampleHeader (hash : String) : blockHeader :=
  { Version := "", CreationDate := 0, Hash := hash, MinerId := "", Round := 0,
    RoundRandomSeed := 0, MerkleTreeRoot := "", StateHash := "",
    ReceiptMerkleTreeRoot := "", NumTxns := 0 }

/-- Witness for C1: with `min_required_chain_length = 1` and a confirmation
at round 0, one iteration exits successfully at round 1. -/
theorem C1_validateChain_min_length_witness :
    validateChainLoop (fun _ => "h") (fun _ _ => some (sampleHeader "x")) 1
        (sampleHeader "c").Round (sampleHeader "c").Hash
        ((sampleHeader "c").Round + 1) 1 = some (true, 1, 0) ∧
    (validateChain (fun _ => "h") (fun _ _ => some (sampleHeader "x")) 1
        (sampleHeader "c") 1 = some true ∧
      (sampleHeader "c").Round + 1 ≤ (1 : Int) ∧
      (1 : Int) = (sampleHeader "c").Round + 1 + (0 : Nat)) :=
  ⟨by decide,
    C1_validateChain_min_length (fun _ => "h") (fun _ _ => some (sampleHeader "x")) 1
      (sampleHeader "c") 1 1 0 (by decide)⟩

end Zcncore
